import Mathlib

/-!
Shallow embedding of `update_readme.py` (LeetCode Stats Tracker).

JSON values are modelled by an inductive type, Python numbers by rationals
(`ℚ`), fallible Python code by `Except`.  Decorative emoji in the README
template are elided; every interpolated value and format specifier of the
template is kept, in source order.
-/

-- Batteries marks the arithmetic on `Rat` irreducible; re-allow unfolding so
-- concrete evaluations go through `decide` and the kernel.
attribute [local semireducible] Rat.mul Rat.add Rat.sub Rat.inv Rat.ofScientific

/-- A JSON value as Python's `json` module decodes it. -/
inductive JValue where
  | null : JValue
  | bool : Bool → JValue
  | num : ℚ → JValue
  | str : String → JValue
  | arr : List JValue → JValue
  | obj : List (String × JValue) → JValue

/-- A decoded JSON object (Python `dict`): association list with unique keys. -/
abbrev Dict := List (String × JValue)

/-- Python exception kinds that the script can raise. -/
inductive PyError where
  | attributeError : PyError
  | typeError : PyError
  | valueError : PyError
  | keyError : PyError
deriving DecidableEq

/-- Python `d.get(k, default)` on an actual dict. -/
def dget (d : Dict) (k : String) (dflt : JValue) : JValue :=
  match d.lookup k with
  | some v => v
  | none => dflt

/-- Python `v.get(k, default)`: succeeds only when `v` is a dict, raises
`AttributeError` otherwise (in particular on `None`). -/
def JValue.pyGet (v : JValue) (k : String) (dflt : JValue) : Except PyError JValue :=
  match v with
  | .obj fields => .ok (dget fields k dflt)
  | _ => .error .attributeError

/-- Python truthiness of a JSON-derived value. -/
def JValue.truthy : JValue → Bool
  | .null => false
  | .bool b => b
  | .num q => !(decide (q = 0))
  | .str s => s ≠ ""
  | .arr l => !(l.isEmpty)
  | .obj f => !(f.isEmpty)

/-- Python iteration over a JSON-derived value: lists yield their elements,
strings their characters, dicts their keys; numbers and `None` raise
`TypeError`. -/
def pyIter : JValue → Except PyError (List JValue)
  | .arr l => .ok l
  | .str s => .ok (s.data.map fun c => .str (String.mk [c]))
  | .obj f => .ok (f.map fun kv => .str kv.1)
  | _ => .error .typeError

/-- Floor of a rational, computably (`Int` division is Euclidean, hence a
floor for the positive denominator). -/
def ratFloor (q : ℚ) : ℤ := q.num / (q.den : ℤ)

/-- Python `int(q)`: truncation toward zero. -/
def pyInt (q : ℚ) : ℤ :=
  if 0 ≤ q then ratFloor q else -(ratFloor (-q))

/-- Round half to even to the nearest integer, as Python's `round` and the
`.1f` format rounding behave on exactly representable values. -/
def rhe (x : ℚ) : ℤ :=
  let f : ℤ := ratFloor x
  let r : ℚ := x - (f : ℚ)
  if 2 * r < 1 then f
  else if 1 < 2 * r then f + 1
  else if f % 2 = 0 then f else f + 1

/-- Python `round(q, 2)`. -/
def pyRound2 (q : ℚ) : ℚ := (rhe (q * 100) : ℚ) / 100

/-- Python `round(v, 2)` on a JSON-derived value: numbers (and bools, which
are ints in Python) round; everything else raises `TypeError`. -/
def pyRound2J : JValue → Except PyError ℚ
  | .num q => .ok (pyRound2 q)
  | .bool b => .ok (if b then 1 else 0)
  | _ => .error .typeError

/-- The character of a decimal digit. -/
def digitChar : ℕ → Char
  | 0 => '0' | 1 => '1' | 2 => '2' | 3 => '3' | 4 => '4'
  | 5 => '5' | 6 => '6' | 7 => '7' | 8 => '8' | _ => '9'

/-- Decimal digits of a natural number, most significant first
(fuel-structured so it reduces in the kernel; `n + 1` fuel always suffices). -/
def natDigitsAux : ℕ → ℕ → List Char
  | 0, _ => []
  | fuel + 1, n =>
    if n < 10 then [digitChar n]
    else natDigitsAux fuel (n / 10) ++ [digitChar (n % 10)]

def natDigits (n : ℕ) : List Char := natDigitsAux (n + 1) n

/-- Decimal expansion of a rational in `[0, 1)`, at most 17 digits (the
longest shortest-repr fraction of a Python float). -/
def fracDigitsAux : ℕ → ℚ → List Char
  | 0, _ => []
  | fuel + 1, r =>
    if r = 0 then []
    else
      let r10 := r * 10
      let d := ratFloor r10
      digitChar d.toNat :: fracDigitsAux fuel (r10 - (d : ℚ))

def fracDigits (r : ℚ) : List Char :=
  let l := fracDigitsAux 17 r
  if l.isEmpty then ['0'] else l

/-- Python `repr`/`str` of a number: integers without a decimal point,
non-integers with one (floats always carry a fractional part). -/
def pyNumRepr (q : ℚ) : String :=
  if q.den = 1 then
    (if q.num < 0 then "-" else "") ++ String.mk (natDigits q.num.natAbs)
  else
    let a := if q < 0 then -q else q
    (if q < 0 then "-" else "") ++ String.mk (natDigits (ratFloor a).toNat)
      ++ "." ++ String.mk (fracDigits (a - (ratFloor a : ℚ)))

/-- Insert a thousands separator every three digits; operates on the
reversed digit list. -/
def commaRev : List Char → List Char
  | d1 :: d2 :: d3 :: d4 :: rest => d1 :: d2 :: d3 :: ',' :: commaRev (d4 :: rest)
  | l => l

/-- Python `f"{n:,}"` for an integer. -/
def intComma (n : ℤ) : String :=
  (if n < 0 then "-" else "") ++ String.mk ((commaRev (natDigits n.natAbs).reverse).reverse)

/-- Python formatting with the `,` format spec, `format(v, ",")`: succeeds on
numbers (and bools), raises `ValueError` on strings and `TypeError` on
`None`, lists and dicts. -/
def formatComma : JValue → Except PyError String
  | .num q =>
    if q.den = 1 then .ok (intComma q.num)
    else
      let a := if q < 0 then -q else q
      .ok ((if q < 0 then "-" else "") ++ intComma (ratFloor a)
        ++ "." ++ String.mk (fracDigits (a - (ratFloor a : ℚ))))
  | .bool b => .ok (if b then "1" else "0")
  | .str _ => .error .valueError
  | _ => .error .typeError

/-- Python `repr` of a JSON-derived value, fuel-structured so it reduces in
the kernel.  The fuel models CPython's recursion limit (about 1000 frames);
values nested beyond it do not occur in this development. -/
def pyReprFuel : ℕ → JValue → String
  | 0, _ => ""
  | fuel + 1, v =>
    match v with
    | .null => "None"
    | .bool true => "True"
    | .bool false => "False"
    | .num q => pyNumRepr q
    | .str s => "\x27" ++ s ++ "\x27"
    | .arr l => "[" ++ String.intercalate ", " (l.map (pyReprFuel fuel)) ++ "]"
    | .obj f => "\x7b" ++ String.intercalate ", "
        (f.map fun kv => "\x27" ++ kv.1 ++ "\x27: " ++ pyReprFuel fuel kv.2) ++ "\x7d"

def pyRepr (v : JValue) : String := pyReprFuel 1000 v

/-- Python `str` of a JSON-derived value (as an f-string interpolates it). -/
def pyStr : JValue → String
  | .str s => s
  | v => pyRepr v

/-- Python `f"{x:.1f}"` for a non-negative value given as tenths `n`. -/
def fmt1n (n : ℕ) : String :=
  String.mk (natDigits (n / 10)) ++ "." ++ String.mk (natDigits (n % 10))

/-- Python `f"{x:.1f}"`: the value rounded to one decimal place. -/
def fmt1 (q : ℚ) : String :=
  let n : ℤ := rhe (q * 10)
  if n < 0 then "-" ++ fmt1n n.natAbs else fmt1n n.toNat

/-- `create_progress_bar` (update_readme.py:156-163): text progress bar. -/
def create_progress_bar (solved : ℚ) (total : ℤ) (length : ℕ := 20) : String :=
  let percentage : ℚ := if 0 < total then min (solved / (total : ℚ)) 1 else 0
  let filled : ℤ := pyInt ((length : ℚ) * percentage)
  let empty : ℤ := (length : ℤ) - filled
  let bar : String := String.mk (List.replicate filled.toNat '█' ++ List.replicate empty.toNat '░')
  "`" ++ bar ++ "` " ++ fmt1 (percentage * 100) ++ "%"

/-- `create_progress_bar` applied to a JSON-derived `solved` value, as the
renderer does: Python `/` raises `TypeError` unless the value is a number
(bools count as ints). -/
def create_progress_barJ (v : JValue) (total : ℤ) : Except PyError String :=
  match v with
  | .num q => .ok (create_progress_bar q total)
  | .bool b => .ok (create_progress_bar (if b then 1 else 0) total)
  | _ => .error .typeError

/-- The four solved counters inside `parse_stats`. -/
structure Counts where
  total : JValue
  easy : JValue
  medium : JValue
  hard : JValue

/-- Python `v == s` for a string literal `s`: true only when `v` is that
string (comparison never raises). -/
def isStrEq (v : JValue) (s : String) : Bool :=
  match v with
  | .str t => t == s
  | _ => false

/-- One iteration of the difficulty loop of `parse_stats`
(update_readme.py:83-94). -/
def applyItem (c : Counts) (it : JValue) : Except PyError Counts :=
  match it with
  | .obj f =>
    let difficulty := dget f "difficulty" (.str "")
    let count := dget f "count" (.num 0)
    .ok (if isStrEq difficulty "All" then { c with total := count }
         else if isStrEq difficulty "Easy" then { c with easy := count }
         else if isStrEq difficulty "Medium" then { c with medium := count }
         else if isStrEq difficulty "Hard" then { c with hard := count }
         else c)
  | _ => .error .attributeError

/-- The whole difficulty loop of `parse_stats`. -/
def runItems (c : Counts) : List JValue → Except PyError Counts
  | [] => .ok c
  | it :: rest =>
    match applyItem c it with
    | .error e => .error e
    | .ok c2 => runItems c2 rest

/-- The stats dictionary built by `parse_stats` (update_readme.py:71-81).
Field values are JSON-derived values, exactly as Python stores them. -/
structure StatsRecord where
  username : JValue
  ranking : JValue
  total_solved : JValue
  easy_solved : JValue
  medium_solved : JValue
  hard_solved : JValue
  contest_rating : JValue
  contests_attended : JValue
  top_percentage : JValue

/-- `parse_stats` (update_readme.py:64-102) on a decoded JSON object.
Sub-expressions appear in Python's evaluation order: the
`submitStats`/`acSubmissionNum` chain (line 69), then the dict literal
(lines 71-81), then the difficulty loop (83-94), then the contest block
(96-100). -/
def parse_statsD (data : Dict) : Except PyError StatsRecord :=
  let user := dget data "matchedUser" (.obj [])
  let contest := dget data "userContestRanking" (.obj [])
  match user.pyGet "submitStats" (.obj []) with
  | .error e => .error e
  | .ok ss =>
  match ss.pyGet "acSubmissionNum" (.arr []) with
  | .error e => .error e
  | .ok submit_stats =>
  match user.pyGet "username" (.str "N/A") with
  | .error e => .error e
  | .ok username =>
  match user.pyGet "profile" (.obj []) with
  | .error e => .error e
  | .ok profile =>
  match profile.pyGet "ranking" (.str "N/A") with
  | .error e => .error e
  | .ok ranking =>
  match pyIter submit_stats with
  | .error e => .error e
  | .ok items =>
  match runItems ⟨.num 0, .num 0, .num 0, .num 0⟩ items with
  | .error e => .error e
  | .ok counts =>
  if contest.truthy then
    match contest.pyGet "rating" (.num 0) with
    | .error e => .error e
    | .ok rv =>
    match pyRound2J rv with
    | .error e => .error e
    | .ok cr =>
    match contest.pyGet "attendedContestsCount" (.num 0) with
    | .error e => .error e
    | .ok ca =>
    match contest.pyGet "topPercentage" .null with
    | .error e => .error e
    | .ok tp =>
    if tp.truthy then
      match pyRound2J tp with
      | .error e => .error e
      | .ok tr =>
        .ok ⟨username, ranking, counts.total, counts.easy, counts.medium,
             counts.hard, .num cr, ca, .str (pyNumRepr tr ++ "%")⟩
    else
      .ok ⟨username, ranking, counts.total, counts.easy, counts.medium,
           counts.hard, .num cr, ca, .str "N/A"⟩
  else
    .ok ⟨username, ranking, counts.total, counts.easy, counts.medium,
         counts.hard, .str "N/A", .str "N/A", .str "N/A"⟩

/-- `parse_stats` applied to an arbitrary JSON value (the fetched
`data["data"]` need not be an object; `.get` on a non-dict raises). -/
def parse_statsJ : JValue → Except PyError StatsRecord
  | .obj fields => parse_statsD fields
  | _ => .error .attributeError

/-- `generate_readme_content` (update_readme.py:105-153): progress bars are
computed first (lines 110-112), then the f-string template interpolates the
record fields; the ranking placeholder with the thousands-separator format
spec is its only fallible one.  Decorative emoji are elided; all
interpolations are kept in source order. -/
def generate_readme_content (stats : StatsRecord) (now : String) : Except PyError String :=
  match create_progress_barJ stats.easy_solved 830 with
  | .error e => .error e
  | .ok easy_bar =>
  match create_progress_barJ stats.medium_solved 1750 with
  | .error e => .error e
  | .ok medium_bar =>
  match create_progress_barJ stats.hard_solved 750 with
  | .error e => .error e
  | .ok hard_bar =>
  match formatComma stats.ranking with
  | .error e => .error e
  | .ok rankingStr =>
    .ok ("# LeetCode Stats Tracker\n\n![LeetCode Stats](https://img.shields.io/badge/LeetCode-"
      ++ pyStr stats.username
      ++ "-orange?style=for-the-badge&logo=leetcode)\n\n## Profile Statistics\n\n| Metric | Value |\n|--------|-------|\n| **Username** | ["
      ++ pyStr stats.username ++ "](https://leetcode.com/" ++ pyStr stats.username
      ++ "/) |\n| **Ranking** | #" ++ rankingStr
      ++ " |\n| **Total Solved** | **" ++ pyStr stats.total_solved
      ++ "** |\n\n## Problem Solving Progress\n\n| Difficulty | Solved | Progress |\n|------------|--------|----------|\n| Easy | "
      ++ pyStr stats.easy_solved ++ " | " ++ easy_bar
      ++ " |\n| Medium | " ++ pyStr stats.medium_solved ++ " | " ++ medium_bar
      ++ " |\n| Hard | " ++ pyStr stats.hard_solved ++ " | " ++ hard_bar
      ++ " |\n\n## Contest Statistics\n\n| Metric | Value |\n|--------|-------|\n| **Contest Rating** | "
      ++ pyStr stats.contest_rating
      ++ " |\n| **Contests Attended** | " ++ pyStr stats.contests_attended
      ++ " |\n| **Top Percentage** | " ++ pyStr stats.top_percentage
      ++ " |\n\n---\n\n<p align=\"center\">\n  <i>This README is automatically updated daily via GitHub Actions</i><br>\n  <sub>Last updated: "
      ++ now
      ++ "</sub>\n</p>\n\n<!-- LEETCODE_STATS_START -->\n<!-- Auto-generated content - Do not edit manually -->\n<!-- LEETCODE_STATS_END -->\n")

/-- An HTTP response as the fetcher sees it: status code and decoded JSON
body (GraphQL responses are JSON objects). -/
structure HttpResponse where
  status : ℕ
  body : Dict

/-- The failures of `fetch_leetcode_stats`: the non-200 exception carrying
the status, the GraphQL exception carrying the error payload, and the
`KeyError` from `data["data"]` on a body without a `data` key. -/
inductive FetchFailure where
  | fetchError (status : ℕ) : FetchFailure
  | graphQLError (payload : JValue) : FetchFailure
  | keyError : FetchFailure

/-- `fetch_leetcode_stats` (update_readme.py:46-61), from the received
response on: status check, then `"errors" in data` (key presence, whatever
the value), then `data["data"]` (a plain subscript, which raises `KeyError`
when absent). -/
def fetch_leetcode_stats (resp : HttpResponse) : Except FetchFailure JValue :=
  if resp.status ≠ 200 then .error (.fetchError resp.status)
  else
    match resp.body.lookup "errors" with
    | some payload => .error (.graphQLError payload)
    | none =>
      match resp.body.lookup "data" with
      | some d => .ok d
      | none => .error .keyError

/-- Observable outcome of one run of `main`: process exit code, how many
times the fetcher was invoked, the final content of the output file, and
whether the missing-username guidance was printed. -/
structure RunOutcome where
  exitCode : ℕ
  fetchCalls : ℕ
  finalFile : Option String
  printedGuidance : Bool

namespace Script

/-- `main` (update_readme.py:173-204): username check, then
fetch → parse → render → write, any exception caught and turned into exit
code 1.  `file0` is the output file's prior content; `update_readme`
overwrites it only in the success branch. -/
def main (env : Option String) (resp : HttpResponse) (now : String)
    (file0 : Option String) : RunOutcome :=
  match env with
  | none => ⟨1, 0, file0, true⟩
  | some username =>
    if username = "" then ⟨1, 0, file0, true⟩
    else
      match fetch_leetcode_stats resp with
      | .error _ => ⟨1, 1, file0, false⟩
      | .ok raw_data =>
        match parse_statsJ raw_data with
        | .error _ => ⟨1, 1, file0, false⟩
        | .ok stats =>
          match generate_readme_content stats now with
          | .error _ => ⟨1, 1, file0, false⟩
          | .ok content => ⟨0, 1, some content, false⟩

end Script

/-! ### The difficulty loop (C6) -/

/-- An entry matches a difficulty tag exactly when it is an object whose
`difficulty` field is that string. -/
def isTagged (tag : String) (it : JValue) : Bool :=
  match it with
  | .obj f => isStrEq (dget f "difficulty" (.str "")) tag
  | _ => false

/-- The `count` field of a breakdown entry (default 0, as in the loop). -/
def itemCount : JValue → JValue
  | .obj f => dget f "count" (.num 0)
  | _ => .num 0

/-- The count of the last entry carrying `tag`, if any. -/
def lastTag (tag : String) (items : List JValue) : Option JValue :=
  (items.reverse.find? (isTagged tag)).map itemCount

/-- The count of the last entry carrying `tag`, or 0 when no entry does. -/
def lastTagCount (tag : String) (items : List JValue) : JValue :=
  (lastTag tag items).getD (.num 0)

def isObjB : JValue → Bool
  | .obj _ => true
  | _ => false

/-! ### Totality of the extractor on well-shaped data (C2) -/

/-- The body of `parse_stats` as a function of the two top-level values it
reads (`matchedUser` and `userContestRanking`, defaulted to `{}`). -/
def parseCore (user contest : JValue) : Except PyError StatsRecord :=
  match user.pyGet "submitStats" (.obj []) with
  | .error e => .error e
  | .ok ss =>
  match ss.pyGet "acSubmissionNum" (.arr []) with
  | .error e => .error e
  | .ok submit_stats =>
  match user.pyGet "username" (.str "N/A") with
  | .error e => .error e
  | .ok username =>
  match user.pyGet "profile" (.obj []) with
  | .error e => .error e
  | .ok profile =>
  match profile.pyGet "ranking" (.str "N/A") with
  | .error e => .error e
  | .ok ranking =>
  match pyIter submit_stats with
  | .error e => .error e
  | .ok items =>
  match runItems ⟨.num 0, .num 0, .num 0, .num 0⟩ items with
  | .error e => .error e
  | .ok counts =>
  if contest.truthy then
    match contest.pyGet "rating" (.num 0) with
    | .error e => .error e
    | .ok rv =>
    match pyRound2J rv with
    | .error e => .error e
    | .ok cr =>
    match contest.pyGet "attendedContestsCount" (.num 0) with
    | .error e => .error e
    | .ok ca =>
    match contest.pyGet "topPercentage" .null with
    | .error e => .error e
    | .ok tp =>
    if tp.truthy then
      match pyRound2J tp with
      | .error e => .error e
      | .ok tr =>
        .ok ⟨username, ranking, counts.total, counts.easy, counts.medium,
             counts.hard, .num cr, ca, .str (pyNumRepr tr ++ "%")⟩
    else
      .ok ⟨username, ranking, counts.total, counts.easy, counts.medium,
           counts.hard, .num cr, ca, .str "N/A"⟩
  else
    .ok ⟨username, ranking, counts.total, counts.easy, counts.medium,
         counts.hard, .str "N/A", .str "N/A", .str "N/A"⟩

/-- The `matchedUser` value is well-shaped: an object whose `submitStats`
(if present) is an object, whose `acSubmissionNum` (if present) is a list
of objects, and whose `profile` (if present) is an object. -/
def wfUserV (U : JValue) : Bool :=
  match U with
  | .obj u =>
      (match u.lookup "submitStats" with
       | none => true
       | some (.obj ss) =>
           (match ss.lookup "acSubmissionNum" with
            | none => true
            | some (.arr items) => items.all isObjB
            | some _ => false)
       | some _ => false)
      && (match u.lookup "profile" with
          | none => true
          | some (.obj _) => true
          | some _ => false)
  | _ => false

/-- The `userContestRanking` value is well-shaped: either falsy (skipped),
or an object whose `rating` (if present) is a number and whose
`topPercentage` (if present) is null or a number. -/
def wfContestV (C : JValue) : Bool :=
  if C.truthy then
    match C with
    | .obj cf =>
        (match cf.lookup "rating" with
         | none => true
         | some (.num _) => true
         | some _ => false)
        && (match cf.lookup "topPercentage" with
            | none => true
            | some .null => true
            | some (.num _) => true
            | some _ => false)
    | _ => false
  else true

/-- Well-shaped input for `parse_stats`: each present nested field has the
JSON type the code expects. -/
def wfParse (data : Dict) : Bool :=
  wfUserV (dget data "matchedUser" (.obj []))
    && wfContestV (dget data "userContestRanking" (.obj []))

/-! ### Helper lemmas -/

theorem ratFloor_eq_floor (q : ℚ) : ratFloor q = ⌊q⌋ := (Rat.floor_def).symm

theorem pyInt_eq_floor (q : ℚ) (h : 0 ≤ q) : pyInt q = ⌊q⌋ := by
  rw [pyInt, if_pos h, ratFloor_eq_floor]

theorem parse_statsD_core (data : Dict) :
    parse_statsD data
      = parseCore (dget data "matchedUser" (.obj []))
          (dget data "userContestRanking" (.obj [])) := rfl

theorem string_data_append (s t : String) : (s ++ t).data = s.data ++ t.data := rfl

theorem digitChar_small (d : ℕ) : (digitChar d).toNat < 128 := by
  unfold digitChar; split <;> decide

theorem natDigitsAux_small (fuel : ℕ) :
    ∀ n : ℕ, ∀ c ∈ natDigitsAux fuel n, c.toNat < 128 := by
  induction fuel with
  | zero => intro n c hc; simp [natDigitsAux] at hc
  | succ fuel ih =>
    intro n c hc
    rw [natDigitsAux] at hc
    by_cases h : n < 10
    · rw [if_pos h, List.mem_singleton] at hc
      exact hc ▸ digitChar_small n
    · rw [if_neg h, List.mem_append] at hc
      rcases hc with hc | hc
      · exact ih _ c hc
      · rw [List.mem_singleton] at hc
        exact hc ▸ digitChar_small _
    -- wildcard

theorem fmt1n_small (n : ℕ) : ∀ c ∈ (fmt1n n).data, c.toNat < 128 := by
  intro c hc
  rw [fmt1n, string_data_append, string_data_append, List.mem_append, List.mem_append] at hc
  rcases hc with (hc | hc) | hc
  · exact natDigitsAux_small _ _ c hc
  · simp only [List.mem_singleton] at hc
    · exact hc ▸ (by decide)
  · exact natDigitsAux_small _ _ c hc

theorem fmt1_small (q : ℚ) : ∀ c ∈ (fmt1 q).data, c.toNat < 128 := by
  intro c hc
  rw [fmt1] at hc
  by_cases h : rhe (q * 10) < 0
  · rw [if_pos h, string_data_append, List.mem_append] at hc
    rcases hc with hc | hc
    · simp only [List.mem_singleton] at hc
      exact hc ▸ (by decide)
    · exact fmt1n_small _ c hc
  · rw [if_neg h] at hc
    exact fmt1n_small _ c hc

theorem count_small_zero (l : List Char) (hl : ∀ c ∈ l, c.toNat < 128)
    (c : Char) (hc : 128 ≤ c.toNat) : l.count c = 0 := by
  rw [List.count_eq_zero]
  intro hm
  exact absurd (hl c hm) (by omega)

/-- The percentage computed by `create_progress_bar` for a natural `solved`. -/
theorem pct_nonneg (solved : ℕ) (total : ℤ) :
    0 ≤ (if 0 < total then min ((solved : ℚ) / (total : ℚ)) 1 else 0) := by
  split
  · next h =>
    refine le_min (div_nonneg (by positivity) ?_) zero_le_one
    exact_mod_cast le_of_lt h
  · exact le_refl 0

theorem pct_le_one (solved : ℕ) (total : ℤ) :
    (if 0 < total then min ((solved : ℚ) / (total : ℚ)) 1 else 0) ≤ 1 := by
  split
  · exact min_le_right _ _
  · exact zero_le_one

theorem string_data_mk (l : List Char) : (String.mk l).data = l := rfl

theorem string_eq_of_data (s t : String) (h : s.data = t.data) : s = t := by
  cases s; cases t; exact congrArg String.mk h

/-- Bounds for the filled-glyph count of the bar. -/
theorem floor_bar_bounds (solved : ℕ) (total : ℤ) (length : ℕ) :
    0 ≤ ⌊(length : ℚ) * (if 0 < total then min ((solved : ℚ) / (total : ℚ)) 1 else 0)⌋
    ∧ ⌊(length : ℚ) * (if 0 < total then min ((solved : ℚ) / (total : ℚ)) 1 else 0)⌋
        ≤ (length : ℤ) := by
  constructor
  · exact Int.floor_nonneg.mpr (mul_nonneg (by positivity) (pct_nonneg solved total))
  · calc ⌊(length : ℚ) * (if 0 < total then min ((solved : ℚ) / (total : ℚ)) 1 else 0)⌋
        ≤ ⌊(length : ℚ)⌋ :=
          Int.floor_le_floor (mul_le_of_le_one_right (by positivity) (pct_le_one solved total))
      _ = (length : ℤ) := Int.floor_natCast _

/-- **C3.** `create_progress_bar` computes `percentage = min(solved/total, 1)`
(or 0 when `total ≤ 0`), `filled = ⌊length * percentage⌋`,
`empty = length - filled`, and returns `filled` filled glyphs followed by
`empty` empty glyphs with a one-decimal-place percentage label; hence
`solved ≥ total > 0` gives `100.0%` all filled, and `solved = 0` gives
`0.0%` all empty. -/
theorem c3_create_progress_bar_spec (solved : ℕ) (total : ℤ) (length : ℕ)
    (hl : 0 < length) :
    (create_progress_bar (solved : ℚ) total length =
       "`" ++ String.mk
          (List.replicate (⌊(length : ℚ) *
              (if 0 < total then min ((solved : ℚ) / (total : ℚ)) 1 else 0)⌋).toNat '█'
            ++ List.replicate (length - (⌊(length : ℚ) *
              (if 0 < total then min ((solved : ℚ) / (total : ℚ)) 1 else 0)⌋).toNat) '░')
        ++ "` "
        ++ fmt1 ((if 0 < total then min ((solved : ℚ) / (total : ℚ)) 1 else 0) * 100)
        ++ "%")
    ∧ (0 < total → total ≤ (solved : ℤ) →
        create_progress_bar (solved : ℚ) total length
          = "`" ++ String.mk (List.replicate length '█') ++ "` 100.0%")
    ∧ create_progress_bar (0 : ℚ) total length
        = "`" ++ String.mk (List.replicate length '░') ++ "` 0.0%" := by
  obtain ⟨hfl0, hflL⟩ := floor_bar_bounds solved total length
  refine ⟨?_, ?_, ?_⟩
  · rw [show create_progress_bar (solved : ℚ) total length =
        "`" ++ String.mk
          (List.replicate (pyInt ((length : ℚ) *
              (if 0 < total then min ((solved : ℚ) / (total : ℚ)) 1 else 0))).toNat '█'
            ++ List.replicate (((length : ℤ) - pyInt ((length : ℚ) *
              (if 0 < total then min ((solved : ℚ) / (total : ℚ)) 1 else 0))).toNat) '░')
          ++ "` "
          ++ fmt1 ((if 0 < total then min ((solved : ℚ) / (total : ℚ)) 1 else 0) * 100)
          ++ "%" from rfl,
      pyInt_eq_floor _ (mul_nonneg (by positivity) (pct_nonneg solved total))]
    have hTo : (((length : ℤ) - ⌊(length : ℚ) *
        (if 0 < total then min ((solved : ℚ) / (total : ℚ)) 1 else 0)⌋).toNat)
        = length - (⌊(length : ℚ) *
        (if 0 < total then min ((solved : ℚ) / (total : ℚ)) 1 else 0)⌋).toNat := by
      omega
    rw [hTo]
  · intro ht hs
    have htq : (0 : ℚ) < (total : ℚ) := by exact_mod_cast ht
    have hP : (if 0 < total then min ((solved : ℚ) / (total : ℚ)) 1 else 0) = 1 := by
      rw [if_pos ht]
      refine min_eq_right ((one_le_div htq).mpr ?_)
      exact_mod_cast hs
    rw [show create_progress_bar (solved : ℚ) total length =
        "`" ++ String.mk
          (List.replicate (pyInt ((length : ℚ) *
              (if 0 < total then min ((solved : ℚ) / (total : ℚ)) 1 else 0))).toNat '█'
            ++ List.replicate (((length : ℤ) - pyInt ((length : ℚ) *
              (if 0 < total then min ((solved : ℚ) / (total : ℚ)) 1 else 0))).toNat) '░')
          ++ "` "
          ++ fmt1 ((if 0 < total then min ((solved : ℚ) / (total : ℚ)) 1 else 0) * 100)
          ++ "%" from rfl,
      hP]
    have h2 : pyInt ((length : ℚ) * 1) = (length : ℤ) := by
      rw [mul_one, pyInt_eq_floor _ (by positivity), Int.floor_natCast]
    rw [h2, one_mul, show fmt1 100 = "100.0" from by decide, sub_self,
      Int.toNat_zero, List.replicate_zero, List.append_nil, Int.toNat_natCast]
    refine string_eq_of_data _ _ ?_
    simp [string_data_append, string_data_mk,
      show ("`" : String).data = ['`'] from rfl,
      show ("` " : String).data = ['`', ' '] from rfl,
      show ("%" : String).data = ['%'] from rfl,
      show ("100.0" : String).data = ['1', '0', '0', '.', '0'] from rfl,
      show ("` 100.0%" : String).data = ['`', ' ', '1', '0', '0', '.', '0', '%'] from rfl]
  · have hP : (if 0 < total then min ((0 : ℚ) / (total : ℚ)) 1 else 0) = 0 := by
      split
      · rw [zero_div]; exact min_eq_left zero_le_one
      · rfl
    rw [show create_progress_bar (0 : ℚ) total length =
        "`" ++ String.mk
          (List.replicate (pyInt ((length : ℚ) *
              (if 0 < total then min ((0 : ℚ) / (total : ℚ)) 1 else 0))).toNat '█'
            ++ List.replicate (((length : ℤ) - pyInt ((length : ℚ) *
              (if 0 < total then min ((0 : ℚ) / (total : ℚ)) 1 else 0))).toNat) '░')
          ++ "` "
          ++ fmt1 ((if 0 < total then min ((0 : ℚ) / (total : ℚ)) 1 else 0) * 100)
          ++ "%" from rfl,
      hP, mul_zero, zero_mul, show pyInt 0 = 0 from by decide,
      show fmt1 0 = "0.0" from by decide, sub_zero, Int.toNat_zero,
      List.replicate_zero, List.nil_append, Int.toNat_natCast]
    refine string_eq_of_data _ _ ?_
    simp [string_data_append, string_data_mk,
      show ("`" : String).data = ['`'] from rfl,
      show ("` " : String).data = ['`', ' '] from rfl,
      show ("%" : String).data = ['%'] from rfl,
      show ("0.0" : String).data = ['0', '.', '0'] from rfl,
      show ("` 0.0%" : String).data = ['`', ' ', '0', '.', '0', '%'] from rfl]

/-- Witness for C3 at concrete inputs. -/
theorem c3_create_progress_bar_spec_witness :
    create_progress_bar ((3 : ℕ) : ℚ) 2 4 = "`" ++ String.mk (List.replicate 4 '█') ++ "` 100.0%"
    ∧ create_progress_bar (0 : ℚ) 5 3 = "`" ++ String.mk (List.replicate 3 '░') ++ "` 0.0%" :=
  ⟨(c3_create_progress_bar_spec 3 2 4 (by decide)).2.1 (by decide) (by decide),
   (c3_create_progress_bar_spec 0 5 3 (by decide)).2.2⟩

/-- Exact glyph counts of the rendered bar string. -/
theorem create_progress_bar_counts (solved : ℕ) (total : ℤ) (length : ℕ) :
    (create_progress_bar (solved : ℚ) total length).data.count '█'
      = (⌊(length : ℚ) *
          (if 0 < total then min ((solved : ℚ) / (total : ℚ)) 1 else 0)⌋).toNat
    ∧ (create_progress_bar (solved : ℚ) total length).data.count '░'
      = length - (⌊(length : ℚ) *
          (if 0 < total then min ((solved : ℚ) / (total : ℚ)) 1 else 0)⌋).toNat := by
  obtain ⟨hfl0, hflL⟩ := floor_bar_bounds solved total length
  have c1 : List.count '█'
      (fmt1 ((if 0 < total then min ((solved : ℚ) / (total : ℚ)) 1 else 0) * 100)).data = 0 :=
    count_small_zero _ (fmt1_small _) _ (by decide)
  have c2 : List.count '░'
      (fmt1 ((if 0 < total then min ((solved : ℚ) / (total : ℚ)) 1 else 0) * 100)).data = 0 :=
    count_small_zero _ (fmt1_small _) _ (by decide)
  rw [show create_progress_bar (solved : ℚ) total length =
      "`" ++ String.mk
        (List.replicate (pyInt ((length : ℚ) *
            (if 0 < total then min ((solved : ℚ) / (total : ℚ)) 1 else 0))).toNat '█'
          ++ List.replicate (((length : ℤ) - pyInt ((length : ℚ) *
            (if 0 < total then min ((solved : ℚ) / (total : ℚ)) 1 else 0))).toNat) '░')
        ++ "` "
        ++ fmt1 ((if 0 < total then min ((solved : ℚ) / (total : ℚ)) 1 else 0) * 100)
        ++ "%" from rfl,
    pyInt_eq_floor _ (mul_nonneg (by positivity) (pct_nonneg solved total))]
  have hA : ∀ n, List.count '█' (List.replicate n '█') = n := fun n =>
    List.count_replicate_self _ _
  have hB : ∀ n, List.count '█' (List.replicate n '░') = 0 := fun n => by
    simp [List.count_replicate]
  have hC : ∀ n, List.count '░' (List.replicate n '░') = n := fun n =>
    List.count_replicate_self _ _
  have hD : ∀ n, List.count '░' (List.replicate n '█') = 0 := fun n => by
    simp [List.count_replicate]
  constructor
  · simp only [string_data_append, string_data_mk, List.count_append]
    rw [c1, hA, hB,
      show List.count '█' ("`" : String).data = 0 from by decide,
      show List.count '█' ("` " : String).data = 0 from by decide,
      show List.count '█' ("%" : String).data = 0 from by decide]
    omega
  · simp only [string_data_append, string_data_mk, List.count_append]
    rw [c2, hC, hD,
      show List.count '░' ("`" : String).data = 0 from by decide,
      show List.count '░' ("` " : String).data = 0 from by decide,
      show List.count '░' ("%" : String).data = 0 from by decide]
    omega

/-- **C4.** The bar string carries exactly `length` glyphs (filled plus
empty), and for fixed `total`/`length` the filled count is monotone
non-decreasing in `solved`. -/
theorem c4_glyph_count_monotone (solved₁ solved₂ : ℕ) (total : ℤ) (length : ℕ)
    (ht : 0 < total) (hl : 0 < length) (hsol : solved₁ ≤ solved₂) :
    ((create_progress_bar (solved₁ : ℚ) total length).data.count '█'
       + (create_progress_bar (solved₁ : ℚ) total length).data.count '░' = length)
    ∧ (create_progress_bar (solved₁ : ℚ) total length).data.count '█'
       ≤ (create_progress_bar (solved₂ : ℚ) total length).data.count '█' := by
  obtain ⟨ha1, ha2⟩ := create_progress_bar_counts solved₁ total length
  obtain ⟨hb1, _⟩ := create_progress_bar_counts solved₂ total length
  obtain ⟨h10, h1L⟩ := floor_bar_bounds solved₁ total length
  constructor
  · rw [ha1, ha2]
    omega
  · rw [ha1, hb1]
    apply Int.toNat_le_toNat
    apply Int.floor_le_floor
    have htq : (0 : ℚ) < (total : ℚ) := by exact_mod_cast ht
    have hd : (solved₁ : ℚ) / (total : ℚ) ≤ (solved₂ : ℚ) / (total : ℚ) := by
      gcongr
    rw [if_pos ht, if_pos ht]
    exact mul_le_mul_of_nonneg_left (min_le_min hd (le_refl 1)) (by positivity)

/-- Witness for C4 at concrete inputs. -/
theorem c4_glyph_count_monotone_witness :
    ((create_progress_bar ((1 : ℕ) : ℚ) 2 4).data.count '█'
       + (create_progress_bar ((1 : ℕ) : ℚ) 2 4).data.count '░' = 4)
    ∧ (create_progress_bar ((1 : ℕ) : ℚ) 2 4).data.count '█'
       ≤ (create_progress_bar ((2 : ℕ) : ℚ) 2 4).data.count '█' :=
  c4_glyph_count_monotone 1 2 2 4 (by decide) (by decide) (by decide)

theorem isStrEq_iff (v : JValue) (s : String) : isStrEq v s = true ↔ v = .str s := by
  cases v <;> simp [isStrEq]

theorem isObjB_exists (v : JValue) (h : isObjB v = true) : ∃ f, v = .obj f := by
  cases v <;> simp_all [isObjB]

theorem applyItem_obj (c : Counts) (f : Dict) :
    applyItem c (.obj f)
      = .ok ⟨if isTagged "All" (.obj f) then itemCount (.obj f) else c.total,
             if isTagged "Easy" (.obj f) then itemCount (.obj f) else c.easy,
             if isTagged "Medium" (.obj f) then itemCount (.obj f) else c.medium,
             if isTagged "Hard" (.obj f) then itemCount (.obj f) else c.hard⟩ := by
  by_cases hA : isStrEq (dget f "difficulty" (.str "")) "All" = true
  · have hd := (isStrEq_iff _ _).mp hA
    simp [applyItem, isTagged, itemCount, hA, hd,
      show isStrEq (JValue.str "All") "All" = true from by decide,
      show isStrEq (JValue.str "All") "Easy" = false from by decide,
      show isStrEq (JValue.str "All") "Medium" = false from by decide,
      show isStrEq (JValue.str "All") "Hard" = false from by decide]
  · by_cases hE : isStrEq (dget f "difficulty" (.str "")) "Easy" = true
    · have hd := (isStrEq_iff _ _).mp hE
      simp [applyItem, isTagged, itemCount, hA, hE, hd,
        show isStrEq (JValue.str "Easy") "All" = false from by decide,
        show isStrEq (JValue.str "Easy") "Easy" = true from by decide,
        show isStrEq (JValue.str "Easy") "Medium" = false from by decide,
        show isStrEq (JValue.str "Easy") "Hard" = false from by decide]
    · by_cases hM : isStrEq (dget f "difficulty" (.str "")) "Medium" = true
      · have hd := (isStrEq_iff _ _).mp hM
        simp [applyItem, isTagged, itemCount, hA, hE, hM, hd,
          show isStrEq (JValue.str "Medium") "All" = false from by decide,
          show isStrEq (JValue.str "Medium") "Easy" = false from by decide,
          show isStrEq (JValue.str "Medium") "Medium" = true from by decide,
          show isStrEq (JValue.str "Medium") "Hard" = false from by decide]
      · by_cases hH : isStrEq (dget f "difficulty" (.str "")) "Hard" = true
        · simp [applyItem, isTagged, itemCount, hA, hE, hM, hH]
        · simp [applyItem, isTagged, itemCount, hA, hE, hM, hH]

theorem lastTag_cons (tag : String) (it : JValue) (rest : List JValue) :
    lastTag tag (it :: rest)
      = match lastTag tag rest with
        | some v => some v
        | none => if isTagged tag it then some (itemCount it) else none := by
  rw [lastTag, lastTag, List.reverse_cons, List.find?_append]
  cases hfind : List.find? (isTagged tag) rest.reverse with
  | some v => simp [List.find?]
  | none =>
    simp only [Option.or, List.find?]
    cases htag : isTagged tag it <;> simp

theorem getD_lastTag_cons (tag : String) (it : JValue) (rest : List JValue)
    (dflt : JValue) :
    (lastTag tag (it :: rest)).getD dflt
      = (lastTag tag rest).getD (if isTagged tag it then itemCount it else dflt) := by
  rw [lastTag_cons]
  cases lastTag tag rest with
  | some v => simp
  | none => cases isTagged tag it <;> simp

/-- The whole loop computes, per tag, the last matching entry's count. -/
theorem runItems_fields (items : List JValue) (h : ∀ it ∈ items, isObjB it = true)
    (c : Counts) :
    runItems c items
      = .ok ⟨(lastTag "All" items).getD c.total,
             (lastTag "Easy" items).getD c.easy,
             (lastTag "Medium" items).getD c.medium,
             (lastTag "Hard" items).getD c.hard⟩ := by
  induction items generalizing c with
  | nil => rfl
  | cons it rest ih =>
    obtain ⟨f, rfl⟩ := isObjB_exists it (h it (List.mem_cons_self it rest))
    have hrest : ∀ x ∈ rest, isObjB x = true := fun x hx => h x (List.mem_cons_of_mem _ hx)
    calc runItems c (.obj f :: rest)
        = runItems ⟨if isTagged "All" (.obj f) then itemCount (.obj f) else c.total,
                    if isTagged "Easy" (.obj f) then itemCount (.obj f) else c.easy,
                    if isTagged "Medium" (.obj f) then itemCount (.obj f) else c.medium,
                    if isTagged "Hard" (.obj f) then itemCount (.obj f) else c.hard⟩ rest := by
          rw [runItems, applyItem_obj]
      _ = .ok ⟨(lastTag "All" rest).getD _, (lastTag "Easy" rest).getD _,
               (lastTag "Medium" rest).getD _, (lastTag "Hard" rest).getD _⟩ := ih hrest _
      _ = .ok ⟨(lastTag "All" (.obj f :: rest)).getD c.total,
               (lastTag "Easy" (.obj f :: rest)).getD c.easy,
               (lastTag "Medium" (.obj f :: rest)).getD c.medium,
               (lastTag "Hard" (.obj f :: rest)).getD c.hard⟩ := by
          rw [getD_lastTag_cons, getD_lastTag_cons, getD_lastTag_cons, getD_lastTag_cons]

/-- **C6.** The extractor walks the breakdown list assigning each entry's
count by its exact tag (`All`/`Easy`/`Medium`/`Hard`), ignores other tags,
and leaves 0 where no entry carries a tag; a lone `All`/1500 entry gives
`total_solved = 1500` and the other counts 0. -/
theorem c6_difficulty_breakdown (items : List JValue)
    (h : ∀ it ∈ items, isObjB it = true) :
    (∃ r, parse_statsD [("matchedUser", .obj [("submitStats",
          .obj [("acSubmissionNum", .arr items)])])] = .ok r
        ∧ r.total_solved = lastTagCount "All" items
        ∧ r.easy_solved = lastTagCount "Easy" items
        ∧ r.medium_solved = lastTagCount "Medium" items
        ∧ r.hard_solved = lastTagCount "Hard" items)
    ∧ parse_statsD [("matchedUser", .obj [("submitStats", .obj [("acSubmissionNum",
          .arr [.obj [("difficulty", .str "All"), ("count", .num 1500)]])])])]
        = .ok ⟨.str "N/A", .str "N/A", .num 1500, .num 0, .num 0, .num 0,
               .str "N/A", .str "N/A", .str "N/A"⟩ := by
  constructor
  · refine ⟨⟨.str "N/A", .str "N/A", lastTagCount "All" items, lastTagCount "Easy" items,
      lastTagCount "Medium" items, lastTagCount "Hard" items,
      .str "N/A", .str "N/A", .str "N/A"⟩, ?_, rfl, rfl, rfl, rfl⟩
    rw [show parse_statsD [("matchedUser", .obj [("submitStats",
          .obj [("acSubmissionNum", .arr items)])])]
        = (match runItems ⟨.num 0, .num 0, .num 0, .num 0⟩ items with
           | .error e => .error e
           | .ok counts => .ok ⟨.str "N/A", .str "N/A", counts.total, counts.easy,
               counts.medium, counts.hard, .str "N/A", .str "N/A", .str "N/A"⟩) from rfl,
      runItems_fields items h]
    rfl
  · rfl

/-- Witness for C6 at a concrete breakdown list. -/
theorem c6_difficulty_breakdown_witness :
    ∃ r, parse_statsD [("matchedUser", .obj [("submitStats", .obj [("acSubmissionNum",
        .arr [.obj [("difficulty", .str "Easy"), ("count", .num 300)]])])])] = .ok r
      ∧ r.total_solved = lastTagCount "All" [.obj [("difficulty", .str "Easy"), ("count", .num 300)]]
      ∧ r.easy_solved = lastTagCount "Easy" [.obj [("difficulty", .str "Easy"), ("count", .num 300)]]
      ∧ r.medium_solved = lastTagCount "Medium" [.obj [("difficulty", .str "Easy"), ("count", .num 300)]]
      ∧ r.hard_solved = lastTagCount "Hard" [.obj [("difficulty", .str "Easy"), ("count", .num 300)]] :=
  (c6_difficulty_breakdown [.obj [("difficulty", .str "Easy"), ("count", .num 300)]]
    (by decide)).1

/-! ### The contest block (C7, C10) -/

/-- How `parse_stats` reduces on a data object whose only entry is a
non-empty `userContestRanking` object. -/
theorem parse_contest_cons (hd : String × JValue) (tl : Dict) :
    parse_statsD [("userContestRanking", .obj (hd :: tl))]
      = match pyRound2J (dget (hd :: tl) "rating" (.num 0)) with
        | .error e => .error e
        | .ok cr =>
          if (dget (hd :: tl) "topPercentage" .null).truthy then
            match pyRound2J (dget (hd :: tl) "topPercentage" .null) with
            | .error e => .error e
            | .ok tr =>
              .ok ⟨.str "N/A", .str "N/A", .num 0, .num 0, .num 0, .num 0, .num cr,
                   dget (hd :: tl) "attendedContestsCount" (.num 0),
                   .str (pyNumRepr tr ++ "%")⟩
          else
            .ok ⟨.str "N/A", .str "N/A", .num 0, .num 0, .num 0, .num 0, .num cr,
                 dget (hd :: tl) "attendedContestsCount" (.num 0), .str "N/A"⟩ := rfl

/-- **C7.** `top_percentage` is the percentile rounded to 2 decimal places
with a trailing `%` exactly when the raw `topPercentage` value is truthy
(present and nonzero); it is `"N/A"` when the value is zero, null or
absent, and when the contest object is missing altogether. -/
theorem c7_top_percentage (cf : Dict) (hne : cf ≠ [])
    (hrating : cf.lookup "rating" = none ∨ ∃ qr : ℚ, cf.lookup "rating" = some (.num qr)) :
    (∀ q : ℚ, cf.lookup "topPercentage" = some (.num q) → q ≠ 0 →
      ∃ r, parse_statsD [("userContestRanking", .obj cf)] = .ok r
        ∧ r.top_percentage = .str (pyNumRepr (pyRound2 q) ++ "%"))
    ∧ ((cf.lookup "topPercentage" = none ∨ cf.lookup "topPercentage" = some .null
          ∨ cf.lookup "topPercentage" = some (.num 0)) →
      ∃ r, parse_statsD [("userContestRanking", .obj cf)] = .ok r
        ∧ r.top_percentage = .str "N/A")
    ∧ (∀ r, parse_statsD [] = .ok r → r.top_percentage = .str "N/A") := by
  match cf, hne with
  | hd :: tl, _ =>
  have hcr : ∃ cr, pyRound2J (dget (hd :: tl) "rating" (.num 0)) = .ok cr := by
    rcases hrating with hr | ⟨qr, hr⟩
    · exact ⟨pyRound2 0, by simp only [dget, hr]; rfl⟩
    · exact ⟨pyRound2 qr, by simp only [dget, hr]; rfl⟩
  obtain ⟨cr, hcr⟩ := hcr
  refine ⟨?_, ?_, ?_⟩
  · intro q hq hq0
    have htp : dget (hd :: tl) "topPercentage" .null = .num q := by
      simp only [dget, hq]
    have heq : parse_statsD [("userContestRanking", .obj (hd :: tl))]
        = .ok ⟨.str "N/A", .str "N/A", .num 0, .num 0, .num 0, .num 0, .num cr,
            dget (hd :: tl) "attendedContestsCount" (.num 0),
            .str (pyNumRepr (pyRound2 q) ++ "%")⟩ := by
      rw [parse_contest_cons, hcr, htp,
        show (JValue.num q).truthy = true by simp [JValue.truthy, hq0]]
      rfl
    exact ⟨_, heq, rfl⟩
  · intro htp
    have htp : (dget (hd :: tl) "topPercentage" .null).truthy = false := by
      rcases htp with h | h | h <;> simp only [dget, h] <;> rfl
    have heq : parse_statsD [("userContestRanking", .obj (hd :: tl))]
        = .ok ⟨.str "N/A", .str "N/A", .num 0, .num 0, .num 0, .num 0, .num cr,
            dget (hd :: tl) "attendedContestsCount" (.num 0), .str "N/A"⟩ := by
      rw [parse_contest_cons, hcr, htp]
      rfl
    exact ⟨_, heq, rfl⟩
  · intro r hr
    rw [show parse_statsD []
        = Except.ok (⟨.str "N/A", .str "N/A", .num 0, .num 0, .num 0, .num 0,
            .str "N/A", .str "N/A", .str "N/A"⟩ : StatsRecord) from rfl] at hr
    cases Except.ok.inj hr
    rfl

/-- Witness for C7 at a concrete contest object. -/
theorem c7_top_percentage_witness :
    (∃ r, parse_statsD [("userContestRanking",
        .obj [("topPercentage", .num (15678/1000))])] = .ok r
      ∧ r.top_percentage = .str (pyNumRepr (pyRound2 (15678/1000)) ++ "%"))
    ∧ ∃ r, parse_statsD [("userContestRanking",
        .obj [("topPercentage", .num 0)])] = .ok r
      ∧ r.top_percentage = .str "N/A" :=
  ⟨(c7_top_percentage [("topPercentage", .num (15678/1000))]
      (List.cons_ne_nil _ _) (Or.inl rfl)).1 (15678/1000) rfl (by norm_num),
   (c7_top_percentage [("topPercentage", .num 0)]
      (List.cons_ne_nil _ _) (Or.inl rfl)).2.1 (Or.inr (Or.inr rfl))⟩

/-- A successful `.get` pins its receiver to a dict and its result to the
lookup. -/
theorem pyGet_ok (v : JValue) (k : String) (d w : JValue)
    (h : v.pyGet k d = .ok w) : ∃ f, v = .obj f ∧ w = dget f k d := by
  cases v with
  | obj f => exact ⟨f, rfl, (Except.ok.inj h).symm⟩
  | null => exact Except.noConfusion h
  | bool b => exact Except.noConfusion h
  | num q => exact Except.noConfusion h
  | str s => exact Except.noConfusion h
  | arr l => exact Except.noConfusion h

/-- On every successful parse, the contest fields are determined by the
truthiness of the `userContestRanking` value: a falsy value leaves both at
the `"N/A"` sentinel, a truthy one forces an object, stores a number in
`contest_rating`, and copies the raw `attendedContestsCount` lookup into
`contests_attended`. -/
theorem parseCore_contest_fields (U C : JValue) (r : StatsRecord)
    (h : parseCore U C = .ok r) :
    (C.truthy = false →
      r.contest_rating = .str "N/A" ∧ r.contests_attended = .str "N/A")
    ∧ (C.truthy = true → ∃ cf cr, C = .obj cf ∧ r.contest_rating = .num cr
        ∧ r.contests_attended = dget cf "attendedContestsCount" (.num 0)) := by
  rw [parseCore.eq_def] at h
  split at h
  · exact Except.noConfusion h
  split at h
  · exact Except.noConfusion h
  split at h
  · exact Except.noConfusion h
  split at h
  · exact Except.noConfusion h
  split at h
  · exact Except.noConfusion h
  split at h
  · exact Except.noConfusion h
  split at h
  · exact Except.noConfusion h
  by_cases hct : C.truthy = true
  · rw [if_pos hct] at h
    split at h
    · exact Except.noConfusion h
    rename_i rv heq
    obtain ⟨cf, rfl, hrv⟩ := pyGet_ok _ _ _ _ heq
    split at h
    · exact Except.noConfusion h
    rename_i cr hcr
    split at h
    · exact Except.noConfusion h
    rename_i ca hca
    have hcaeq : ca = dget cf "attendedContestsCount" (.num 0) :=
      (Except.ok.inj hca).symm
    split at h
    · exact Except.noConfusion h
    rename_i tp htp
    split at h
    · split at h
      · exact Except.noConfusion h
      rename_i tr htr
      cases Except.ok.inj h
      exact ⟨fun h2 => Bool.noConfusion (h2 ▸ hct),
             fun _ => ⟨cf, cr, rfl, rfl, hcaeq⟩⟩
    · cases Except.ok.inj h
      exact ⟨fun h2 => Bool.noConfusion (h2 ▸ hct),
             fun _ => ⟨cf, cr, rfl, rfl, hcaeq⟩⟩
  · rw [if_neg hct] at h
    cases Except.ok.inj h
    exact ⟨fun _ => ⟨rfl, rfl⟩, fun h2 => absurd h2 hct⟩

/-- **C10 (amended).** Inside a present, non-empty contest object, a
missing `rating` key yields `contest_rating = 0` and a missing
`attendedContestsCount` key yields `contests_attended = 0` — each key
independently.  `contest_rating` is `"N/A"` only when the contest value is
falsy (absent, null, or empty); `contests_attended` echoes the raw
response value, so it is `"N/A"` only when the contest value is falsy or
the response itself carries the literal string `"N/A"` for that key.  A
falsy contest value leaves both fields at the sentinel. -/
theorem c10_contest_field_defaults :
    (∀ cf : Dict, cf ≠ [] → cf.lookup "rating" = none →
      (cf.lookup "topPercentage" = none ∨ cf.lookup "topPercentage" = some .null
        ∨ ∃ q : ℚ, cf.lookup "topPercentage" = some (.num q)) →
      ∃ r, parse_statsD [("userContestRanking", .obj cf)] = .ok r
        ∧ r.contest_rating = .num 0)
    ∧ (∀ cf : Dict, cf ≠ [] → cf.lookup "attendedContestsCount" = none →
      (cf.lookup "rating" = none ∨ ∃ qr : ℚ, cf.lookup "rating" = some (.num qr)) →
      (cf.lookup "topPercentage" = none ∨ cf.lookup "topPercentage" = some .null
        ∨ ∃ q : ℚ, cf.lookup "topPercentage" = some (.num q)) →
      ∃ r, parse_statsD [("userContestRanking", .obj cf)] = .ok r
        ∧ r.contests_attended = .num 0)
    ∧ (∀ (data : Dict) (r : StatsRecord), parse_statsD data = .ok r →
      r.contest_rating = .str "N/A" →
      (dget data "userContestRanking" (.obj [])).truthy = false)
    ∧ (∀ (data : Dict) (r : StatsRecord), parse_statsD data = .ok r →
      r.contests_attended = .str "N/A" →
      (dget data "userContestRanking" (.obj [])).truthy = false
      ∨ ∃ cf, dget data "userContestRanking" (.obj []) = .obj cf
          ∧ dget cf "attendedContestsCount" (.num 0) = .str "N/A")
    ∧ (∀ r, parse_statsD [] = .ok r →
      r.contest_rating = .str "N/A" ∧ r.contests_attended = .str "N/A")
    ∧ parse_statsD [("userContestRanking", .null)]
        = .ok ⟨.str "N/A", .str "N/A", .num 0, .num 0, .num 0, .num 0,
               .str "N/A", .str "N/A", .str "N/A"⟩
    ∧ parse_statsD [("userContestRanking", .obj [])]
        = .ok ⟨.str "N/A", .str "N/A", .num 0, .num 0, .num 0, .num 0,
               .str "N/A", .str "N/A", .str "N/A"⟩ := by
  refine ⟨?_, ?_, ?_, ?_, ?_, rfl, rfl⟩
  · intro cf hne hrat htp
    match cf, hne with
    | hd :: tl, _ =>
    have hcr : pyRound2J (dget (hd :: tl) "rating" (.num 0)) = .ok 0 := by
      simp only [dget, hrat]
      rfl
    rcases htp with h | h | ⟨q, h⟩
    · have heq : parse_statsD [("userContestRanking", .obj (hd :: tl))]
          = .ok ⟨.str "N/A", .str "N/A", .num 0, .num 0, .num 0, .num 0, .num 0,
              dget (hd :: tl) "attendedContestsCount" (.num 0), .str "N/A"⟩ := by
        rw [parse_contest_cons, hcr, show dget (hd :: tl) "topPercentage" .null = .null by
          simp only [dget, h]]
        rfl
      exact ⟨_, heq, rfl⟩
    · have heq : parse_statsD [("userContestRanking", .obj (hd :: tl))]
          = .ok ⟨.str "N/A", .str "N/A", .num 0, .num 0, .num 0, .num 0, .num 0,
              dget (hd :: tl) "attendedContestsCount" (.num 0), .str "N/A"⟩ := by
        rw [parse_contest_cons, hcr, show dget (hd :: tl) "topPercentage" .null = .null by
          simp only [dget, h]]
        rfl
      exact ⟨_, heq, rfl⟩
    · have htpv : dget (hd :: tl) "topPercentage" .null = .num q := by
        simp only [dget, h]
      by_cases hq : (JValue.num q).truthy = true
      · have heq : parse_statsD [("userContestRanking", .obj (hd :: tl))]
            = .ok ⟨.str "N/A", .str "N/A", .num 0, .num 0, .num 0, .num 0, .num 0,
                dget (hd :: tl) "attendedContestsCount" (.num 0),
                .str (pyNumRepr (pyRound2 q) ++ "%")⟩ := by
          rw [parse_contest_cons, hcr, htpv, hq]
          rfl
        exact ⟨_, heq, rfl⟩
      · have heq : parse_statsD [("userContestRanking", .obj (hd :: tl))]
            = .ok ⟨.str "N/A", .str "N/A", .num 0, .num 0, .num 0, .num 0, .num 0,
                dget (hd :: tl) "attendedContestsCount" (.num 0), .str "N/A"⟩ := by
          rw [parse_contest_cons, hcr, htpv, Bool.of_not_eq_true hq]
          rfl
        exact ⟨_, heq, rfl⟩
  · intro cf hne hatt hrating htp
    match cf, hne with
    | hd :: tl, _ =>
    have hca : dget (hd :: tl) "attendedContestsCount" (.num 0) = .num 0 := by
      simp only [dget, hatt]
    have hcr : ∃ cr, pyRound2J (dget (hd :: tl) "rating" (.num 0)) = .ok cr := by
      rcases hrating with hr | ⟨qr, hr⟩
      · exact ⟨pyRound2 0, by simp only [dget, hr]; rfl⟩
      · exact ⟨pyRound2 qr, by simp only [dget, hr]; rfl⟩
    obtain ⟨cr, hcr⟩ := hcr
    rcases htp with h | h | ⟨q, h⟩
    · have heq : parse_statsD [("userContestRanking", .obj (hd :: tl))]
          = .ok ⟨.str "N/A", .str "N/A", .num 0, .num 0, .num 0, .num 0, .num cr,
              .num 0, .str "N/A"⟩ := by
        rw [parse_contest_cons, hcr, hca, show dget (hd :: tl) "topPercentage" .null = .null by
          simp only [dget, h]]
        rfl
      exact ⟨_, heq, rfl⟩
    · have heq : parse_statsD [("userContestRanking", .obj (hd :: tl))]
          = .ok ⟨.str "N/A", .str "N/A", .num 0, .num 0, .num 0, .num 0, .num cr,
              .num 0, .str "N/A"⟩ := by
        rw [parse_contest_cons, hcr, hca, show dget (hd :: tl) "topPercentage" .null = .null by
          simp only [dget, h]]
        rfl
      exact ⟨_, heq, rfl⟩
    · have htpv : dget (hd :: tl) "topPercentage" .null = .num q := by
        simp only [dget, h]
      by_cases hq : (JValue.num q).truthy = true
      · have heq : parse_statsD [("userContestRanking", .obj (hd :: tl))]
            = .ok ⟨.str "N/A", .str "N/A", .num 0, .num 0, .num 0, .num 0, .num cr,
                .num 0, .str (pyNumRepr (pyRound2 q) ++ "%")⟩ := by
          rw [parse_contest_cons, hcr, hca, htpv, hq]
          rfl
        exact ⟨_, heq, rfl⟩
      · have heq : parse_statsD [("userContestRanking", .obj (hd :: tl))]
            = .ok ⟨.str "N/A", .str "N/A", .num 0, .num 0, .num 0, .num 0, .num cr,
                .num 0, .str "N/A"⟩ := by
          rw [parse_contest_cons, hcr, hca, htpv, Bool.of_not_eq_true hq]
          rfl
        exact ⟨_, heq, rfl⟩
  · intro data r hok hna
    rw [parse_statsD_core] at hok
    obtain ⟨hfalse, htrue⟩ := parseCore_contest_fields _ _ _ hok
    by_cases hct : (dget data "userContestRanking" (.obj [])).truthy = true
    · obtain ⟨cf, cr, _, hcrat, _⟩ := htrue hct
      rw [hcrat] at hna
      exact JValue.noConfusion hna
    · exact Bool.of_not_eq_true hct
  · intro data r hok hna
    rw [parse_statsD_core] at hok
    obtain ⟨hfalse, htrue⟩ := parseCore_contest_fields _ _ _ hok
    by_cases hct : (dget data "userContestRanking" (.obj [])).truthy = true
    · obtain ⟨cf, cr, hC, _, hatt⟩ := htrue hct
      exact Or.inr ⟨cf, hC, hatt.symm.trans hna⟩
    · exact Or.inl (Bool.of_not_eq_true hct)
  · intro r hr
    rw [show parse_statsD []
        = Except.ok (⟨.str "N/A", .str "N/A", .num 0, .num 0, .num 0, .num 0,
            .str "N/A", .str "N/A", .str "N/A"⟩ : StatsRecord) from rfl] at hr
    cases Except.ok.inj hr
    exact ⟨rfl, rfl⟩

/-- **C10 (counterexample).** `contests_attended` is a verbatim copy of the
response value: a present, non-empty contest object carrying the literal
string `"N/A"` under `attendedContestsCount` reproduces the sentinel even
though `userContestRanking` is neither absent, null, nor empty — so the
sentinel does not occur only in those cases. -/
theorem c10_attended_passthrough_counterexample :
    parse_statsD [("userContestRanking", .obj [("attendedContestsCount", .str "N/A")])]
      = .ok ⟨.str "N/A", .str "N/A", .num 0, .num 0, .num 0, .num 0, .num 0,
             .str "N/A", .str "N/A"⟩
    ∧ (JValue.obj [("attendedContestsCount", .str "N/A")]).truthy = true :=
  ⟨rfl, rfl⟩

/-- Witness for the amended C10: only `rating` missing, then only
`attendedContestsCount` missing. -/
theorem c10_contest_field_defaults_witness :
    (∃ r, parse_statsD [("userContestRanking",
        .obj [("attendedContestsCount", .num 12)])] = .ok r
      ∧ r.contest_rating = .num 0)
    ∧ ∃ r, parse_statsD [("userContestRanking",
        .obj [("rating", .num 1500)])] = .ok r
      ∧ r.contests_attended = .num 0 :=
  ⟨c10_contest_field_defaults.1 [("attendedContestsCount", .num 12)]
      (List.cons_ne_nil _ _) rfl (Or.inl rfl),
   c10_contest_field_defaults.2.1 [("rating", .num 1500)]
      (List.cons_ne_nil _ _) rfl (Or.inr ⟨1500, rfl⟩) (Or.inl rfl)⟩

theorem parseCore_ok (U C : JValue) (hU : wfUserV U = true) (hC : wfContestV C = true) :
    ∃ r, parseCore U C = .ok r := by
  match U, hU with
  | .obj u, hU =>
  rw [wfUserV, Bool.and_eq_true] at hU
  obtain ⟨hss, hprof⟩ := hU
  have hSS : ∃ ssD, dget u "submitStats" (.obj []) = .obj ssD
      ∧ (ssD.lookup "acSubmissionNum" = none
         ∨ ∃ items, ssD.lookup "acSubmissionNum" = some (.arr items)
             ∧ items.all isObjB = true) := by
    split at hss
    · next h1 => exact ⟨[], by simp only [dget, h1], Or.inl rfl⟩
    · next ss h1 =>
      refine ⟨ss, by simp only [dget, h1], ?_⟩
      split at hss
      · next h2 => exact Or.inl h2
      · next items h2 => exact Or.inr ⟨items, h2, hss⟩
      · next h2 h3 => exact absurd hss (by simp)
    · next h1 h2 => exact absurd hss (by simp)
  obtain ⟨ssD, hSSeq, hitems⟩ := hSS
  have hsub : ∃ items, dget ssD "acSubmissionNum" (.arr []) = .arr items
      ∧ ∀ it ∈ items, isObjB it = true := by
    rcases hitems with h2 | ⟨items, h2, hall⟩
    · exact ⟨[], by simp only [dget, h2], by intro it hit; cases hit⟩
    · exact ⟨items, by simp only [dget, h2], by
        intro it hit
        exact List.all_eq_true.mp hall it hit⟩
  obtain ⟨items, hsubeq, hall⟩ := hsub
  have hpD : ∃ pD, dget u "profile" (.obj []) = .obj pD := by
    split at hprof
    · next h3 => exact ⟨[], by simp only [dget, h3]⟩
    · next pD h3 => exact ⟨pD, by simp only [dget, h3]⟩
    · next h3 h4 => exact absurd hprof (by simp)
  obtain ⟨pD, hpeq⟩ := hpD
  simp only [parseCore,
    show (JValue.obj u).pyGet "submitStats" (.obj [])
      = .ok (dget u "submitStats" (.obj [])) from rfl,
    hSSeq,
    show (JValue.obj ssD).pyGet "acSubmissionNum" (.arr [])
      = .ok (dget ssD "acSubmissionNum" (.arr [])) from rfl,
    hsubeq,
    show (JValue.obj u).pyGet "username" (.str "N/A")
      = .ok (dget u "username" (.str "N/A")) from rfl,
    show (JValue.obj u).pyGet "profile" (.obj [])
      = .ok (dget u "profile" (.obj [])) from rfl,
    hpeq,
    show (JValue.obj pD).pyGet "ranking" (.str "N/A")
      = .ok (dget pD "ranking" (.str "N/A")) from rfl,
    show pyIter (JValue.arr items) = .ok items from rfl,
    runItems_fields items hall]
  by_cases hCt : C.truthy = true
  · cases C with
    | null => exact absurd hCt (by decide)
    | bool b =>
      rw [wfContestV.eq_def, if_pos hCt] at hC
      simp at hC
    | num q =>
      rw [wfContestV.eq_def, if_pos hCt] at hC
      simp at hC
    | str s =>
      rw [wfContestV.eq_def, if_pos hCt] at hC
      simp at hC
    | arr l =>
      rw [wfContestV.eq_def, if_pos hCt] at hC
      simp at hC
    | obj cf =>
      rw [wfContestV.eq_def, if_pos hCt, Bool.and_eq_true] at hC
      obtain ⟨hrat, htp⟩ := hC
      have hcr : ∃ cr, pyRound2J (dget cf "rating" (.num 0)) = .ok cr := by
        split at hrat
        · next h4 => exact ⟨pyRound2 0, by simp only [dget, h4]; rfl⟩
        · next qr h4 => exact ⟨pyRound2 qr, by simp only [dget, h4]; rfl⟩
        · next h4 h5 => exact absurd hrat (by simp)
      obtain ⟨cr, hcr⟩ := hcr
      have hT : dget cf "topPercentage" .null = .null
          ∨ ∃ q : ℚ, dget cf "topPercentage" .null = .num q := by
        split at htp
        · next h5 => exact Or.inl (by simp only [dget, h5])
        · next h5 => exact Or.inl (by simp only [dget, h5])
        · next q h5 => exact Or.inr ⟨q, by simp only [dget, h5]⟩
        · next h5 h6 h7 => exact absurd htp (by simp)
      rw [if_pos hCt]
      simp only [show (JValue.obj cf).pyGet "rating" (.num 0)
          = .ok (dget cf "rating" (.num 0)) from rfl,
        hcr,
        show (JValue.obj cf).pyGet "attendedContestsCount" (.num 0)
          = .ok (dget cf "attendedContestsCount" (.num 0)) from rfl,
        show (JValue.obj cf).pyGet "topPercentage" .null
          = .ok (dget cf "topPercentage" .null) from rfl]
      rcases hT with hT | ⟨q, hT⟩
      · rw [hT]
        exact ⟨_, rfl⟩
      · rw [hT]
        by_cases hq : (JValue.num q).truthy = true
        · rw [hq]
          exact ⟨_, rfl⟩
        · rw [Bool.of_not_eq_true hq]
          exact ⟨_, rfl⟩
  · have hCf : C.truthy = false := by
      revert hCt
      cases C.truthy <;> simp
    rw [hCf]
    exact ⟨_, rfl⟩

/-- **C2 (amended).** `parse_stats` returns a record and never raises
provided each present nested field has its expected JSON type (sub-objects
are objects rather than null, the breakdown is a list of objects, the
percentile is numeric, null or absent). -/
theorem c2_parse_stats_amended (data : Dict) (h : wfParse data = true) :
    ∃ r, parse_statsD data = .ok r := by
  rw [wfParse, Bool.and_eq_true] at h
  rw [parse_statsD_core]
  exact parseCore_ok _ _ h.1 h.2

/-- **C2 (counterexample).** On JSON-derived inputs whose sub-objects are
null (or whose percentile is a truthy non-number) `parse_stats` raises:
`matchedUser = null` and `profile = null` hit `AttributeError` from
`None.get`, a string `topPercentage` hits `TypeError` from `round`. -/
theorem c2_parse_stats_counterexample :
    parse_statsD [("matchedUser", JValue.null)] = .error .attributeError
    ∧ parse_statsD [("matchedUser", .obj [("profile", JValue.null)])]
        = .error .attributeError
    ∧ parse_statsD [("userContestRanking", .obj [("topPercentage", .str "high")])]
        = .error .typeError :=
  ⟨rfl, rfl, rfl⟩

/-- Witness for the amended C2 at a fully populated input. -/
theorem c2_parse_stats_amended_witness :
    ∃ r, parse_statsD [("matchedUser", .obj [("username", .str "alice"),
        ("submitStats", .obj [("acSubmissionNum",
          .arr [.obj [("difficulty", .str "All"), ("count", .num 10)]])]),
        ("profile", .obj [("ranking", .num 1234)])]),
      ("userContestRanking", .obj [("rating", .num 1500),
        ("topPercentage", .num 5)])] = .ok r :=
  c2_parse_stats_amended _ (by decide)

/-! ### Fetcher (C5) -/

/-- **C5 (counterexample).** A 200 response whose body has no `errors` key
and no `data` key makes the fetcher raise `KeyError` instead of returning
a data object, so "returns the data object iff status 200 and no errors
key" fails as stated. -/
theorem c5_fetch_counterexample :
    fetch_leetcode_stats ⟨200, []⟩ = .error .keyError
    ∧ (⟨200, []⟩ : HttpResponse).status = 200
    ∧ List.lookup "errors" ([] : Dict) = none :=
  ⟨rfl, rfl, rfl⟩

/-- **C5 (amended).** The fetcher returns the body's `data` value iff the
status is 200, there is no `errors` key and a `data` key is present; a
non-200 status fails with the status-carrying error, an `errors` key (at
200) fails with the payload-carrying error, and a 200 body with no `data`
key fails with `KeyError`.  The function consumes exactly one response:
no retry. -/
theorem c5_fetch_characterization (resp : HttpResponse) :
    ((∃ d, fetch_leetcode_stats resp = .ok d)
       ↔ resp.status = 200 ∧ resp.body.lookup "errors" = none
         ∧ ∃ v, resp.body.lookup "data" = some v)
    ∧ (∀ d, fetch_leetcode_stats resp = .ok d → resp.body.lookup "data" = some d)
    ∧ (resp.status ≠ 200 → fetch_leetcode_stats resp = .error (.fetchError resp.status))
    ∧ (∀ e, resp.status = 200 → resp.body.lookup "errors" = some e →
        fetch_leetcode_stats resp = .error (.graphQLError e))
    ∧ (resp.status = 200 → resp.body.lookup "errors" = none →
        resp.body.lookup "data" = none →
        fetch_leetcode_stats resp = .error .keyError) := by
  obtain ⟨st, body⟩ := resp
  by_cases hst : st = 200
  · subst hst
    have h200 : fetch_leetcode_stats ⟨200, body⟩
        = (match body.lookup "errors" with
           | some payload => .error (.graphQLError payload)
           | none =>
             match body.lookup "data" with
             | some d => .ok d
             | none => .error .keyError) := rfl
    cases herr : body.lookup "errors" with
    | some e =>
      have hfe : fetch_leetcode_stats ⟨200, body⟩ = .error (.graphQLError e) := by
        rw [h200, herr]
      refine ⟨⟨?_, ?_⟩, ?_, ?_, ?_, ?_⟩
      · rintro ⟨d, hd⟩
        rw [hfe] at hd
        exact Except.noConfusion hd
      · rintro ⟨-, hne, -⟩
        exact Option.noConfusion hne
      · intro d hd
        rw [hfe] at hd
        exact Except.noConfusion hd
      · intro hne
        exact absurd rfl hne
      · intro e2 _ he2
        cases he2
        exact hfe
      · intro _ hne _
        exact Option.noConfusion hne
    | none =>
      cases hdat : body.lookup "data" with
      | some v =>
        have hok : fetch_leetcode_stats ⟨200, body⟩ = .ok v := by
          rw [h200, herr, hdat]
        refine ⟨⟨?_, ?_⟩, ?_, ?_, ?_, ?_⟩
        · intro _
          exact ⟨rfl, rfl, v, rfl⟩
        · intro _
          exact ⟨v, hok⟩
        · intro d hd
          rw [hok] at hd
          cases Except.ok.inj hd
          rfl
        · intro hne
          exact absurd rfl hne
        · intro e2 _ he2
          exact Option.noConfusion he2
        · intro _ _ hn
          exact Option.noConfusion hn
      | none =>
        have hke : fetch_leetcode_stats ⟨200, body⟩ = .error .keyError := by
          rw [h200, herr, hdat]
        refine ⟨⟨?_, ?_⟩, ?_, ?_, ?_, ?_⟩
        · rintro ⟨d, hd⟩
          rw [hke] at hd
          exact Except.noConfusion hd
        · rintro ⟨-, -, v, hv⟩
          exact Option.noConfusion hv
        · intro d hd
          rw [hke] at hd
          exact Except.noConfusion hd
        · intro hne
          exact absurd rfl hne
        · intro e2 _ he2
          exact Option.noConfusion he2
        · intro _ _ _
          exact hke
  · have hfe : fetch_leetcode_stats ⟨st, body⟩ = .error (.fetchError st) := by
      rw [fetch_leetcode_stats.eq_def, if_pos]
      exact hst
    refine ⟨⟨?_, ?_⟩, ?_, ?_, ?_, ?_⟩
    · rintro ⟨d, hd⟩
      rw [hfe] at hd
      exact Except.noConfusion hd
    · rintro ⟨h200x, -, -⟩
      exact absurd h200x hst
    · intro d hd
      rw [hfe] at hd
      exact Except.noConfusion hd
    · intro _
      exact hfe
    · intro e2 h200x _
      exact absurd h200x hst
    · intro h200x _ _
      exact absurd h200x hst

/-- Witness for the amended C5 at a 403 response. -/
theorem c5_fetch_characterization_witness :
    fetch_leetcode_stats ⟨403, []⟩ = .error (.fetchError 403) :=
  (c5_fetch_characterization ⟨403, []⟩).2.2.1 (by decide)

/-! ### Orchestrator (C8, C9) -/

/-- **C8.** An unset or empty `LEETCODE_USERNAME` makes the orchestrator
print the guidance and exit with code 1 without ever invoking the
fetcher. -/
theorem c8_missing_username (env : Option String) (resp : HttpResponse)
    (now : String) (file0 : Option String) (h : env = none ∨ env = some "") :
    (Script.main env resp now file0).exitCode = 1
    ∧ (Script.main env resp now file0).fetchCalls = 0
    ∧ (Script.main env resp now file0).printedGuidance = true := by
  rcases h with rfl | rfl
  · exact ⟨rfl, rfl, rfl⟩
  · exact ⟨rfl, rfl, rfl⟩

/-- Witness for C8 with the variable unset. -/
theorem c8_missing_username_witness :
    (Script.main none ⟨200, []⟩ "t" none).exitCode = 1
    ∧ (Script.main none ⟨200, []⟩ "t" none).fetchCalls = 0
    ∧ (Script.main none ⟨200, []⟩ "t" none).printedGuidance = true :=
  c8_missing_username none ⟨200, []⟩ "t" none (Or.inl rfl)

/-- **C9.** If the fetch, extraction or rendering stage fails, the run
exits with code 1 and the output file keeps its prior content — the file
is only written after rendering succeeded. -/
theorem c9_no_partial_output (env : Option String) (resp : HttpResponse)
    (now : String) (file0 : Option String) (u : String)
    (henv : env = some u) (hu : u ≠ "")
    (hfail : (∃ e, fetch_leetcode_stats resp = .error e)
      ∨ (∃ raw e, fetch_leetcode_stats resp = .ok raw ∧ parse_statsJ raw = .error e)
      ∨ (∃ raw stats e, fetch_leetcode_stats resp = .ok raw
          ∧ parse_statsJ raw = .ok stats
          ∧ generate_readme_content stats now = .error e)) :
    (Script.main env resp now file0).exitCode = 1
    ∧ (Script.main env resp now file0).finalFile = file0 := by
  subst henv
  have hmain : Script.main (some u) resp now file0
      = (if u = "" then ⟨1, 0, file0, true⟩
         else
           match fetch_leetcode_stats resp with
           | .error _ => ⟨1, 1, file0, false⟩
           | .ok raw_data =>
             match parse_statsJ raw_data with
             | .error _ => ⟨1, 1, file0, false⟩
             | .ok stats =>
               match generate_readme_content stats now with
               | .error _ => ⟨1, 1, file0, false⟩
               | .ok content => ⟨0, 1, some content, false⟩) := rfl
  rw [hmain, if_neg hu]
  rcases hfail with ⟨e, he⟩ | ⟨raw, e, hraw, he⟩ | ⟨raw, stats, e, hraw, hstats, he⟩
  · rw [he]
    exact ⟨rfl, rfl⟩
  · simp only [hraw, he]
    exact ⟨trivial, trivial⟩
  · simp only [hraw, hstats, he]
    exact ⟨trivial, trivial⟩

/-- Witness for C9 at a 403 response. -/
theorem c9_no_partial_output_witness :
    (Script.main (some "alice") ⟨403, []⟩ "t" (some "old")).exitCode = 1
    ∧ (Script.main (some "alice") ⟨403, []⟩ "t" (some "old")).finalFile = some "old" :=
  c9_no_partial_output (some "alice") ⟨403, []⟩ "t" (some "old") "alice" rfl
    (by decide) (Or.inl ⟨.fetchError 403, rfl⟩)

/-! ### Renderer on sentinel defaults (C1) -/

/-- **C1 (code bug).** `parse_stats` of an empty data object produces the
all-sentinel record (in particular `ranking = "N/A"`), and
`generate_readme_content` fails on it: the `,` format spec of the ranking
placeholder raises `ValueError` on the string `"N/A"`.  The same record
with a numeric ranking renders fine, isolating the failure to the
sentinel. -/
theorem c1_render_fails_on_sentinel :
    parse_statsD [] = .ok ⟨.str "N/A", .str "N/A", .num 0, .num 0, .num 0, .num 0,
        .str "N/A", .str "N/A", .str "N/A"⟩
    ∧ generate_readme_content ⟨.str "N/A", .str "N/A", .num 0, .num 0, .num 0, .num 0,
        .str "N/A", .str "N/A", .str "N/A"⟩ "2026-01-01 00:00:00 UTC"
        = .error .valueError
    ∧ (∃ s, generate_readme_content ⟨.str "N/A", .num 123456, .num 0, .num 0, .num 0,
        .num 0, .str "N/A", .str "N/A", .str "N/A"⟩ "2026-01-01 00:00:00 UTC"
        = .ok s) :=
  ⟨rfl, rfl, ⟨_, rfl⟩⟩
